import Mathlib

/-!
Shallow embedding of the `ims_client` repository (Python clients for the
IMS and Forecast HTTP services), covering the parts the claims are about:

* `replication_data` / `get_replication_count` / chunk pagination
  (src/bb_clients/ims/__init__.py, lines 307-368);
* `archive` / `archive_all` (lines 256-305);
* `readings` parameter construction and non-success handling (lines 83-113),
  `tanks` (lines 198-213), `async_tanks` (lines 239-254);
* the Forecast client's `near` / `far` (src/bb_clients/fc/__init__.py).

HTTP responses are modelled as a status code plus an optional decoded body
(`none` models a body whose `r.json()` raises `JSONDecodeError`).  The
tenacity retry decorators are not modelled: in a deterministic environment a
scripted response stands for the outcome of the final attempt, and
`reraise=True` means the last outcome is what the caller sees either way.
-/

namespace IMS

/-- A JSON value, as far as the client code inspects one: Python truthiness
and constructor shape are all that the modelled code paths use. -/
inductive Json where
  | null : Json
  | bool (b : Bool) : Json
  | num (n : Int) : Json
  | str (s : String) : Json
  | arr (xs : List Json) : Json
  | obj (kvs : List (String × Json)) : Json

/-- Python truthiness of a JSON value (`if x:` / `while x:`). -/
def Json.truthy : Json → Bool
  | .null => false
  | .bool b => b
  | .num n => n != 0
  | .str s => s != ""
  | .arr xs => !xs.isEmpty
  | .obj kvs => !kvs.isEmpty

/-- The exceptions the modelled code can raise: `JSONDecodeError` from
`r.json()`, and `HTTPException(status, detail)` raised by
`get_replication_count`. -/
inductive PyError where
  | jsonDecodeError : PyError
  | httpException (status : Nat) (detail : String) : PyError
deriving DecidableEq

/-- An HTTP response as the client sees it: the status code and the result
of `r.json()` (`none` when the body does not parse as JSON). -/
structure Response (β : Type) where
  status : Nat
  body : Option β
deriving DecidableEq

/-- Decoded body of a `/logs/replication_count` response: a JSON object
that may or may not carry a `total` key. -/
structure CountBody where
  total : Option Int
deriving DecidableEq

/-- Decoded body of a `/logs/replication_data` chunk response: a JSON
object with optional `total`, `count` and `data` keys (`chunk.get` with a
default is used for each in the source). -/
structure ChunkBody (Row : Type) where
  total : Option Int
  count : Option Int
  data : Option (List Row)
deriving DecidableEq

/-- `get_replication_count` (src/bb_clients/ims/__init__.py:348-368):
non-200 status raises `HTTPException(422, ...)`; a body that does not parse
as JSON raises `HTTPException(500, ...)`; otherwise returns
`r.json().get("total", limit)`. -/
def get_replication_count (limit : Int) (resp : Response CountBody) :
    Except PyError Int :=
  if resp.status ≠ 200 then
    .error (.httpException 422
      ("Bad response from target IMS service: " ++ toString resp.status))
  else
    match resp.body with
    | none => .error (.httpException 500
        "Error reading response from target IMS service")
    | some b => .ok (b.total.getD limit)

/-- What one iteration of the `replication_data` while-loop does with the
chunk response, given the current `count` and `total`. -/
inductive StepResult (Row : Type) where
  | stop : StepResult Row
  | yield (d : List Row) (count total : Int) : StepResult Row
deriving DecidableEq

/-- One iteration of the `replication_data` loop body
(src/bb_clients/ims/__init__.py:320-330), after the chunk request has been
issued: `JSONDecodeError` breaks; `if total == limit: total =
chunk.get("total", limit)`; then `if chunk_data := chunk.get("data", []):`
yields the data and advances `count += chunk.get("count", 0)`, else breaks. -/
def replication_step {Row : Type} (limit count total : Int)
    (resp : Response (ChunkBody Row)) : StepResult Row :=
  match resp.body with
  | none => .stop
  | some chunk =>
    let total' := if total = limit then chunk.total.getD limit else total
    match chunk.data.getD [] with
    | [] => .stop
    | d => .yield d (count + chunk.count.getD 0) total'

/-- Observable outcome of a `replication_data` pagination run: the yielded
chunk payloads in order, the `skip` value of each chunk request issued, and
whether the loop reached one of its own termination conditions (`finished =
false` only when the modelling fuel ran out first; the Python loop has no
such bound and can run forever). -/
structure RepResult (Row : Type) where
  chunks : List (List Row)
  requests : List Int
  finished : Bool
deriving DecidableEq

/-- The `while count < total` loop of `replication_data`
(src/bb_clients/ims/__init__.py:316-330).  `env i` is the response to the
i-th chunk request; the request's `skip` parameter is the current `count`,
recorded in `requests`.  `fuel` bounds the number of iterations so the
definition is total; it is an artifact of the embedding, not of the code. -/
def replication_loop {Row : Type} (limit : Int)
    (env : Nat → Response (ChunkBody Row)) :
    Nat → Nat → Int → Int → RepResult Row
  | 0, _, _, _ => ⟨[], [], false⟩
  | fuel + 1, i, count, total =>
    if count < total then
      match replication_step limit count total (env i) with
      | .stop => ⟨[], [count], true⟩
      | .yield d count' total' =>
        let rest := replication_loop limit env fuel (i + 1) count' total'
        ⟨d :: rest.chunks, count :: rest.requests, rest.finished⟩
    else ⟨[], [], true⟩

/-- `replication_data` (src/bb_clients/ims/__init__.py:307-330): Step 1
obtains `total` from the count query (its `HTTPException`s propagate to the
caller, who then receives no rows), then the chunked loop runs with
`count = 0`.  `countResp` is the count-query response and `env` the chunk
responses. -/
def replication_data {Row : Type} (limit : Int) (countResp : Response CountBody)
    (env : Nat → Response (ChunkBody Row)) (fuel : Nat) :
    Except PyError (RepResult Row) :=
  match get_replication_count limit countResp with
  | .error e => .error e
  | .ok total => .ok (replication_loop limit env fuel 0 0 total)

/-- `archive` (src/bb_clients/ims/__init__.py:256-275): one POST to
`/archive/archive_dangerous`; a non-200 status is logged and the call
returns `False`; on 200 the call returns `r.json()` (whose decode failure
propagates). -/
def archive (resp : Response Json) : Except PyError Json :=
  if resp.status ≠ 200 then .ok (.bool false)
  else
    match resp.body with
    | none => .error .jsonDecodeError
    | some j => .ok j

/-- Observable outcome of an `archive_all` run: how many archive RPCs were
issued, how many times the loop suspended in `await sleep(sleep_sec)`, and
the returned value (`True` on clean exit). -/
structure ArchiveAllTrace where
  rpcs : Nat
  sleeps : Nat
  result : Bool
deriving DecidableEq

/-- The `while await self.archive(limit, days_back):` loop of `archive_all`
(src/bb_clients/ims/__init__.py:277-305) run against a scripted list of
archive responses, accumulating the RPC and sleep counts.  Each truthy
archive result runs the body (which ends in one sleep) and loops; a falsy
result exits the loop and `archive_all` returns `True`.  `none` means the
script ran out before the loop terminated (the Python loop would keep
issuing requests); an archive decode error propagates. -/
def archive_all_loop : List (Response Json) → Nat → Nat →
    Option (Except PyError ArchiveAllTrace)
  | [], _, _ => none
  | r :: rest, rpcs, sleeps =>
    match archive r with
    | .error e => some (.error e)
    | .ok v =>
      if v.truthy then archive_all_loop rest (rpcs + 1) (sleeps + 1)
      else some (.ok ⟨rpcs + 1, sleeps, true⟩)

/-- `archive_all` (src/bb_clients/ims/__init__.py:277-305) over a scripted
list of archive responses, starting with zero RPCs and sleeps issued. -/
def archive_all (responses : List (Response Json)) :
    Option (Except PyError ArchiveAllTrace) :=
  archive_all_loop responses 0 0

/-- A Python `datetime`, abstracted to the one operation the modelled code
performs on it: `isoformat()`. -/
structure PyDateTime where
  isoformat : String
deriving DecidableEq

/-- A query-parameter value as placed in the `params` dict by the client
(httpx stringifies these on the wire). -/
inductive PVal where
  | str (s : String) : PVal
  | bool (b : Bool) : PVal
  | int (n : Int) : PVal
deriving DecidableEq

/-- Lookup of a key in a params dict (all keys written by the modelled code
are distinct, so first-match lookup coincides with Python dict access). -/
def plookup : List (String × PVal) → String → Option PVal
  | [], _ => none
  | (k, v) :: rest, key => if k = key then some v else plookup rest key

/-- The `params` dict built by `readings`
(src/bb_clients/ims/__init__.py:92-103): the base dict with `system_psk`,
`store_number`, `tank_id`, `start_date`, `include_manual`; then `if end:`
(a datetime is always truthy, so this fires exactly when `end` is not None)
adds the key `end_data` bound to `end.isoformat()`; then `if limit:`
(Python truthiness: fires when `limit` is neither None nor 0) adds `limit`. -/
def readings_params (system_psk store tank : String) (start : PyDateTime)
    (end_ : Option PyDateTime) (include_manual : Bool) (limit : Option Int) :
    List (String × PVal) :=
  let params := [("system_psk", PVal.str system_psk),
    ("store_number", PVal.str store),
    ("tank_id", PVal.str tank),
    ("start_date", PVal.str start.isoformat),
    ("include_manual", PVal.bool include_manual)]
  let params := match end_ with
    | some e => params ++ [("end_data", PVal.str e.isoformat)]
    | none => params
  let params := match limit with
    | some l => if l = 0 then params else params ++ [("limit", PVal.int l)]
    | none => params
  params

/-- Response handling of `readings` (src/bb_clients/ims/__init__.py:109-113):
`data = r.json() if r.status_code == 200 else []`, then each row's
`read_time`/`run_time` strings are replaced by parsed datetimes (that
per-row normalization is `fixRow`, a parameter of the embedding since
`dateutil.parser.parse` itself is out of scope; it maps rows pointwise and
leaves the empty list empty). -/
def readings_data (fixRow : Json → Json) (resp : Response (List Json)) :
    Except PyError (List Json) :=
  if resp.status = 200 then
    match resp.body with
    | none => .error .jsonDecodeError
    | some rows => .ok (rows.map fixRow)
  else .ok []

/-- `tanks` with `as_model=False` (src/bb_clients/ims/__init__.py:200-213):
the response status is never inspected; the call returns `r.json()`
whatever the status (raising `JSONDecodeError` when the body is not JSON). -/
def tanks (resp : Response Json) : Except PyError Json :=
  match resp.body with
  | none => .error .jsonDecodeError
  | some j => .ok j

/-- `async_tanks` (src/bb_clients/ims/__init__.py:241-254): non-200 status
is logged and the call returns `[]`; on 200 the rows of `r.json()` are
parsed into `Tank` models (model parsing itself is out of scope; the rows
are returned as decoded). -/
def async_tanks (resp : Response (List Json)) : Except PyError (List Json) :=
  if resp.status ≠ 200 then .ok []
  else
    match resp.body with
    | none => .error .jsonDecodeError
    | some rows => .ok rows

/-- The Forecast client's `near` with `as_model=False`
(src/bb_clients/fc/__init__.py:57-67):
`data = r.json() if r.status_code == 200 else []`, returned as-is. -/
def near (resp : Response Json) : Except PyError Json :=
  if resp.status = 200 then
    match resp.body with
    | none => .error .jsonDecodeError
    | some j => .ok j
  else .ok (.arr [])

/-- The Forecast client's `far` with `as_model=False`
(src/bb_clients/fc/__init__.py:69-82), identical in shape to `near`. -/
def far (resp : Response Json) : Except PyError Json :=
  if resp.status = 200 then
    match resp.body with
    | none => .error .jsonDecodeError
    | some j => .ok j
  else .ok (.arr [])

/-- Chunk responses for the C1 scenario: the first chunk reports
`count = 5` while carrying two rows; every later chunk has empty `data`. -/
def c1Env : Nat → Response (ChunkBody String)
  | 0 => ⟨200, some ⟨none, some 5, some ["A", "B"]⟩⟩
  | _ => ⟨200, some ⟨none, none, some []⟩⟩

/-- Chunk responses for the C2 scenario: the first chunk carries its own
`total = 10` and `count = 3` with two rows; later chunks keep returning a
row. -/
def c2Env : Nat → Response (ChunkBody String)
  | 0 => ⟨200, some ⟨some 10, some 3, some ["A", "B"]⟩⟩
  | _ => ⟨200, some ⟨none, none, some ["X"]⟩⟩

/-- C1 counterexample: with `limit = 2`, a Step-1 total of 10, and a first
chunk `{count: 5, data: [A, B]}`, the claim predicts the cursor advances by
the requested limit, so the second chunk request would carry
`skip = 0 + 2 = 2`; the code advances `count` by the chunk's `count` field,
and the trace shows the second request was issued with `skip = 5`, not 2. -/
theorem cursor_advance_by_limit_cex :
    replication_data 2 ⟨200, some ⟨some 10⟩⟩ c1Env 10 =
      .ok ⟨[["A", "B"]], [0, 5], true⟩ ∧ (0 : Int) + 2 ≠ 5 :=
  ⟨rfl, by decide⟩

/-- C1 amended: for every iteration whose chunk response parses as JSON and
carries a non-empty `data` sequence, the chunk's `data` is yielded and the
running cursor `count` (the `skip` of the next chunk request) is advanced
by the chunk response's own `count` field, defaulting to 0 when that field
is absent — not by the requested page limit. -/
theorem cursor_advances_by_chunk_count {Row : Type} (limit : Int)
    (env : Nat → Response (ChunkBody Row)) (fuel i : Nat) (count total : Int)
    (chunk : ChunkBody Row) (hlt : count < total)
    (hbody : (env i).body = some chunk) (hne : chunk.data.getD [] ≠ []) :
    replication_loop limit env (fuel + 1) i count total =
      ⟨chunk.data.getD [] ::
         (replication_loop limit env fuel (i + 1) (count + chunk.count.getD 0)
           (if total = limit then chunk.total.getD limit else total)).chunks,
       count ::
         (replication_loop limit env fuel (i + 1) (count + chunk.count.getD 0)
           (if total = limit then chunk.total.getD limit else total)).requests,
       (replication_loop limit env fuel (i + 1) (count + chunk.count.getD 0)
         (if total = limit then chunk.total.getD limit else total)).finished⟩ := by
  cases hd : chunk.data.getD [] with
  | nil => exact absurd hd hne
  | cons a as => simp [replication_loop, hlt, replication_step, hbody, hd]

/-- Witness for the amended C1 at a concrete state: the first c1Env chunk
carries `count = 5`, so the loop yields `[A, B]` and recurses with cursor
`5`, not with cursor `limit = 2`. -/
theorem cursor_advances_by_chunk_count_witness :
    (0 : Int) < 10 ∧
    replication_loop 2 c1Env 2 0 0 10 =
      ⟨["A", "B"] :: (replication_loop 2 c1Env 1 1 5 10).chunks,
       0 :: (replication_loop 2 c1Env 1 1 5 10).requests,
       (replication_loop 2 c1Env 1 1 5 10).finished⟩ :=
  ⟨by decide, cursor_advances_by_chunk_count 2 c1Env 1 0 0 10
    ⟨none, some 5, some ["A", "B"]⟩ (by decide) rfl (by decide)⟩

/-- C2 counterexample: with `limit = 2` and a Step-1 total of 3, the very
first chunk carries `total = 10`, yet the run stops after that single
request with cursor 3: the trace records one request only, although under
the claim the adopted total 10 would satisfy `3 < 10` and force a second
chunk request.  The chunk's total is ignored because the current total (3)
differs from the limit (2). -/
theorem first_chunk_total_override_cex :
    replication_data 2 ⟨200, some ⟨some 3⟩⟩ c2Env 10 =
      .ok ⟨[["A", "B"]], [0], true⟩ ∧ (3 : Int) < 10 :=
  ⟨rfl, by decide⟩

/-- C2 amended: on any iteration (not only the first) whose chunk response
parses with non-empty `data`, the chunk's `total` field (defaulting to the
requested limit) replaces the running total exactly when the current total
equals the requested limit; a Step-1 total different from the limit is
never overridden. -/
theorem chunk_total_adopted_only_at_limit {Row : Type} (limit count total : Int)
    (resp : Response (ChunkBody Row)) (chunk : ChunkBody Row)
    (hbody : resp.body = some chunk) (hne : chunk.data.getD [] ≠ []) :
    replication_step limit count total resp =
      .yield (chunk.data.getD []) (count + chunk.count.getD 0)
        (if total = limit then chunk.total.getD limit else total) := by
  cases hd : chunk.data.getD [] with
  | nil => exact absurd hd hne
  | cons a as => simp [replication_step, hbody, hd]

/-- Witness for the amended C2 at a concrete step: current total 3, limit
2, chunk carrying `total = 10`: the step keeps total 3. -/
theorem chunk_total_adopted_only_at_limit_witness :
    replication_step 2 0 3
      (⟨200, some ⟨some 10, some 3, some ["A", "B"]⟩⟩ :
        Response (ChunkBody String)) = .yield ["A", "B"] 3 3 :=
  chunk_total_adopted_only_at_limit 2 0 3 _ ⟨some 10, some 3, some ["A", "B"]⟩
    rfl (by decide)

/-- C3: if the count query response has a non-success status or an
undecodable body, `replication_data` raises the corresponding
`HTTPException` to the caller (as a generator, on its first advancement)
and yields no rows: the whole run is an error, never an empty sequence or
a zero total. -/
theorem count_query_failure_raises {Row : Type} (limit : Int)
    (countResp : Response CountBody) (env : Nat → Response (ChunkBody Row))
    (fuel : Nat) (h : countResp.status ≠ 200 ∨ countResp.body = none) :
    replication_data limit countResp env fuel =
      .error (if countResp.status ≠ 200 then
          .httpException 422
            ("Bad response from target IMS service: " ++ toString countResp.status)
        else .httpException 500 "Error reading response from target IMS service") := by
  by_cases hs : countResp.status = 200
  · have hb : countResp.body = none := h.resolve_left (by simp [hs])
    simp [replication_data, get_replication_count, hs, hb]
  · simp [replication_data, get_replication_count, hs]

/-- Witness for C3 at a concrete input: a 503 count response makes the
whole run fail with `HTTPException(422, ...)`. -/
theorem count_query_failure_raises_witness :
    ((503 : Nat) ≠ 200 ∨ (⟨503, some ⟨some 5⟩⟩ : Response CountBody).body = none) ∧
    replication_data 1000 ⟨503, some ⟨some 5⟩⟩
      (fun _ => (⟨200, none⟩ : Response (ChunkBody Nat))) 3 =
      .error (.httpException 422 "Bad response from target IMS service: 503") :=
  ⟨Or.inl (by decide),
   count_query_failure_raises 1000 ⟨503, some ⟨some 5⟩⟩ _ 3 (Or.inl (by decide))⟩

/-- C4: an iteration whose chunk response body fails to parse as JSON ends
the loop without raising (`JSONDecodeError` is caught and breaks): that
iteration contributes no chunks and terminates, so a run's output is
exactly the chunks yielded by the iterations before it (each of which
prepends its `data`, by the loop's recursive structure). -/
theorem chunk_decode_failure_ends_loop {Row : Type} (limit : Int)
    (env : Nat → Response (ChunkBody Row)) (fuel i : Nat) (count total : Int)
    (hlt : count < total) (hbody : (env i).body = none) :
    replication_loop limit env (fuel + 1) i count total = ⟨[], [count], true⟩ := by
  simp [replication_loop, hlt, replication_step, hbody]

/-- Witness for C4 at a concrete state: an undecodable chunk body ends the
loop with no further chunks. -/
theorem chunk_decode_failure_ends_loop_witness :
    (0 : Int) < 3 ∧
    replication_loop 10 (fun _ => (⟨200, none⟩ : Response (ChunkBody Nat))) 1 0 0 3 =
      ⟨[], [0], true⟩ :=
  ⟨by decide, chunk_decode_failure_ends_loop 10 _ 0 0 0 3 (by decide) rfl⟩

/-- C5: when the count query returns `total = 0`, the `while count < total`
guard fails immediately: no chunk request is issued and the output sequence
is empty. -/
theorem zero_total_no_requests {Row : Type} (limit : Int)
    (countResp : Response CountBody) (env : Nat → Response (ChunkBody Row))
    (fuel : Nat) (h : get_replication_count limit countResp = .ok 0) :
    replication_data limit countResp env (fuel + 1) = .ok ⟨[], [], true⟩ := by
  simp [replication_data, h, replication_loop]

/-- Witness for C5 at a concrete input: a count response carrying
`total = 0` produces an empty run with no chunk requests. -/
theorem zero_total_no_requests_witness :
    get_replication_count 1000 ⟨200, some ⟨some 0⟩⟩ = .ok 0 ∧
    replication_data 1000 ⟨200, some ⟨some 0⟩⟩
      (fun _ => (⟨200, none⟩ : Response (ChunkBody Nat))) 1 = .ok ⟨[], [], true⟩ :=
  ⟨rfl, zero_total_no_requests 1000 ⟨200, some ⟨some 0⟩⟩ _ 0 rfl⟩

/-- C6 counterexample: the synchronous `tanks` never inspects the status;
on a 500 response whose body is the service's error object, the call
returns that object — not an empty collection. -/
theorem tanks_non_success_not_empty_cex :
    tanks ⟨500, some (.obj [("detail", .str "Internal Server Error")])⟩ =
      .ok (.obj [("detail", .str "Internal Server Error")]) ∧
    Json.obj [("detail", .str "Internal Server Error")] ≠ .arr [] ∧
    Json.obj [("detail", .str "Internal Server Error")] ≠ .obj [] := by
  refine ⟨rfl, ?_, ?_⟩ <;> intro h <;> simp at h

/-- C6 amended: on a non-success status, `readings`, the forecast `near`
and `far`, and `async_tanks` all return an empty collection without
raising; the synchronous `tanks`, however, performs no status check and
returns whatever the body parses to, whatever the status. -/
theorem best_effort_non_success_empty (fixRow : Json → Json)
    (resp1 : Response (List Json)) (resp2 : Response Json)
    (resp3 : Response (List Json)) (j : Json)
    (h1 : resp1.status ≠ 200) (h2 : resp2.status ≠ 200) (h3 : resp3.status ≠ 200)
    (hj : resp2.body = some j) :
    readings_data fixRow resp1 = .ok [] ∧ near resp2 = .ok (.arr []) ∧
    far resp2 = .ok (.arr []) ∧ async_tanks resp3 = .ok [] ∧
    tanks resp2 = .ok j := by
  refine ⟨?_, ?_, ?_, ?_, ?_⟩ <;>
    simp [readings_data, near, far, async_tanks, tanks, h1, h2, h3, hj]

/-- Witness for the amended C6 at concrete non-success responses. -/
theorem best_effort_non_success_empty_witness :
    readings_data id ⟨500, some [Json.num 1]⟩ = .ok [] ∧
    near ⟨500, some (.obj [("detail", .str "x")])⟩ = .ok (.arr []) ∧
    far ⟨500, some (.obj [("detail", .str "x")])⟩ = .ok (.arr []) ∧
    async_tanks ⟨503, some [Json.num 2]⟩ = .ok [] ∧
    tanks ⟨500, some (.obj [("detail", .str "x")])⟩ =
      .ok (.obj [("detail", .str "x")]) :=
  best_effort_non_success_empty id ⟨500, some [Json.num 1]⟩
    ⟨500, some (.obj [("detail", .str "x")])⟩ ⟨503, some [Json.num 2]⟩
    (.obj [("detail", .str "x")]) (by decide) (by decide) (by decide) rfl

/-- C7: against the archive response script `true, true, false`, the
`archive_all` loop issues exactly 3 archive RPCs, suspends in
`await sleep(sleep_sec)` exactly twice (once after each `true`), and
returns `True`. -/
theorem archive_all_true_true_false :
    archive_all [⟨200, some (.bool true)⟩, ⟨200, some (.bool true)⟩,
      ⟨200, some (.bool false)⟩] = some (.ok ⟨3, 2, true⟩) := rfl

/-- C9: an archive RPC whose response has a non-success status returns
`False` (after logging), so `archive_all` exits its loop on that very
iteration and returns `True` — one RPC, no sleep, the same observable
outcome as a 200 response whose body is `false` (the server reporting
nothing left to archive). -/
theorem archive_failure_terminates_archive_all (resp : Response Json)
    (rest : List (Response Json)) (h : resp.status ≠ 200) :
    archive resp = .ok (.bool false) ∧
    archive_all (resp :: rest) = some (.ok ⟨1, 0, true⟩) ∧
    archive_all (resp :: rest) = archive_all [⟨200, some (.bool false)⟩] := by
  have h1 : archive resp = .ok (.bool false) := by simp [archive, h]
  have h2 : archive_all (resp :: rest) = some (.ok ⟨1, 0, true⟩) := by
    simp [archive_all, archive_all_loop, h1, Json.truthy]
  exact ⟨h1, h2, h2.trans rfl⟩

/-- Witness for C9 at a concrete input: a 500 archive response ends
`archive_all` cleanly after a single RPC. -/
theorem archive_failure_terminates_archive_all_witness :
    archive ⟨500, some (.str "oops")⟩ = .ok (.bool false) ∧
    archive_all [⟨500, some (.str "oops")⟩] = some (.ok ⟨1, 0, true⟩) ∧
    archive_all [⟨500, some (.str "oops")⟩] =
      archive_all [⟨200, some (.bool false)⟩] :=
  archive_failure_terminates_archive_all ⟨500, some (.str "oops")⟩ [] (by decide)

/-- C8: with a non-None `end` argument, the `readings` params carry the ISO
rendering of `end` under the key `end_data` — a misspelling of the intended
`end_date` (cf. `start_date` beside it and the documented request shape) —
and carry no `end_date` key at all. -/
theorem readings_end_param_key (psk store tank : String) (start e : PyDateTime)
    (include_manual : Bool) (limit : Option Int) :
    plookup (readings_params psk store tank start (some e) include_manual limit)
      "end_data" = some (.str e.isoformat) ∧
    plookup (readings_params psk store tank start (some e) include_manual limit)
      "end_date" = none := by
  rcases limit with _ | l
  · exact ⟨rfl, rfl⟩
  · by_cases hl : l = 0
    · subst hl; exact ⟨rfl, rfl⟩
    · simp only [readings_params, if_neg hl]
      exact ⟨rfl, rfl⟩

/-- C10: a count query response with status 200 whose JSON body lacks a
`total` key makes `get_replication_count` return the requested page limit
(the `.get("total", limit)` default), neither raising nor returning zero. -/
theorem count_query_missing_total_returns_limit (limit : Int)
    (resp : Response CountBody) (b : CountBody) (hstatus : resp.status = 200)
    (hbody : resp.body = some b) (htotal : b.total = none) :
    get_replication_count limit resp = .ok limit := by
  simp [get_replication_count, hstatus, hbody, htotal]

/-- Witness for C10 at a concrete input: a 200 body without `total` yields
the limit 1000. -/
theorem count_query_missing_total_returns_limit_witness :
    get_replication_count 1000 ⟨200, some ⟨none⟩⟩ = .ok 1000 :=
  count_query_missing_total_returns_limit 1000 ⟨200, some ⟨none⟩⟩ ⟨none⟩ rfl rfl rfl

end IMS
